import Mathlib

/-!
Shallow embedding of the Event Report Generator (Flask app `app.py` plus the
PDF builder `report_logic.py`).

Python strings are modelled as Lean `String` (sequences of characters);
Python `str.strip` / `str.lower` are modelled at the character-list level.
File contents are abstract: an uploaded file carries its filename and, when it
is read as a spreadsheet, the first-column cells it yields; images on disk are
modelled by a map from path to a file state (absent / unreadable / image with
pixel dimensions).  Disk writes, timestamps and the actual PDF byte rendering
are outside the model: the generated PDF document is represented by its
ordered list of flowables, which is what `generate_report_pdf` assembles
before calling `doc.build`.
-/

namespace EventReport

/-! ### Python string primitives -/

/-- Python `str.strip()` on a character list: drop whitespace from both ends. -/
def pyStrip (l : List Char) : List Char :=
  ((l.dropWhile Char.isWhitespace).reverse.dropWhile Char.isWhitespace).reverse

/-- Python `str.strip()` on strings. -/
def pyStripS (s : String) : String := ⟨pyStrip s.data⟩

/-- Python `str.lower()` (ASCII case folding, as used for extensions and
header labels here). -/
def pyLower (s : String) : String := ⟨s.data.map Char.toLower⟩

/-- Python `str.splitlines()`: split on `\n`, `\r` and `\r\n`, with no trailing
empty line.  `acc` accumulates the current (reversed) line. -/
def pySplitlines : List Char → List Char → List (List Char)
  | [], acc => if acc.isEmpty then [] else [acc.reverse]
  | '\r' :: '\n' :: rest, acc => acc.reverse :: pySplitlines rest []
  | '\r' :: rest, acc => acc.reverse :: pySplitlines rest []
  | '\n' :: rest, acc => acc.reverse :: pySplitlines rest []
  | c :: rest, acc => pySplitlines rest (c :: acc)

/-- Python `str.split(',')` on a character list. -/
def splitOnComma : List Char → List (List Char)
  | [] => [[]]
  | c :: rest =>
    if c = ',' then [] :: splitOnComma rest
    else
      match splitOnComma rest with
      | r :: rs => (c :: r) :: rs
      | [] => [[c]]

/-- Split a character list at its LAST `'.'`, returning the parts before and
after it, or `none` when there is no dot.  This is Python
`filename.rsplit('.', 1)` restricted to the case used by `allowed_file`. -/
def rsplitLastDot : List Char → Option (List Char × List Char)
  | [] => none
  | c :: rest =>
    match rsplitLastDot rest with
    | some (a, b) => some (c :: a, b)
    | none => if c = '.' then some ([], rest) else none

/-! ### app.py: extension checks and attendance parsing -/

def ALLOWED_IMAGE_EXTS : List String := ["png", "jpg", "jpeg", "gif"]

def ALLOWED_EXCEL_EXTS : List String := ["xlsx"]

/-- `allowed_file` from app.py:
`'.' in filename and filename.rsplit('.', 1)[1].lower() in allowed_set`. -/
def allowed_file (filename : String) (allowed : List String) : Bool :=
  decide ('.' ∈ filename.data) &&
    match rsplitLastDot filename.data with
    | some (_, ext) => decide (pyLower ⟨ext⟩ ∈ allowed)
    | none => false

/-- The content of an uploaded spreadsheet as pandas `read_excel` sees it:
whether reading raised, the number of columns, and the cells of the first
column (`none` models a NaN cell removed by `dropna`; non-NaN cells are the
strings produced by `astype(str)`). -/
structure ExcelSheet where
  parseError : Bool
  ncols : Nat
  firstCol : List (Option String)
deriving DecidableEq

/-- Header labels recognised by `parse_attendance_excel` (app.py line 44). -/
def headerLabels : List String := ["name", "names", "participant", "participant name"]

/-- `parse_attendance_excel` from app.py, over the sheet the saved file
yields.  A read error returns `[]`; a sheet with no columns returns `[]`;
otherwise the first column is taken, NaN cells dropped, a recognised header
cell dropped, and the remaining cells stripped with empties filtered out. -/
def parse_attendance_excel (sh : ExcelSheet) : List String :=
  if sh.parseError then []
  else if sh.ncols = 0 then []
  else
    let first_col := sh.firstCol.filterMap id
    let first_col :=
      match first_col with
      | c :: rest => if pyLower (pyStripS c) ∈ headerLabels then rest else c :: rest
      | [] => []
    (first_col.map pyStripS).filter (fun s => s ≠ "")

/-- `parse_attendance_text` from app.py: split the text into lines, strip each
line, skip empty lines, and split lines containing a comma into
comma-separated parts, stripping each part and skipping empty parts. -/
def parse_attendance_text (text : Option String) : List String :=
  match text with
  | none => []
  | some t =>
    if t = "" then []
    else
      (pySplitlines t.data []).foldl
        (fun parts rawLine =>
          if pyStrip rawLine = [] then parts
          else if ',' ∈ pyStrip rawLine then
            parts ++
              (((splitOnComma (pyStrip rawLine)).map pyStrip).filter
                  (fun p => p ≠ [])).map
                (fun p => (⟨p⟩ : String))
          else parts ++ [(⟨pyStrip rawLine⟩ : String)])
        []

/-- The names contributed by one raw line, per the specification's reading:
split the line on commas, trim every part, drop empty parts. -/
def splitLineNames (rawLine : List Char) : List String :=
  (((splitOnComma (pyStrip rawLine)).map pyStrip).filter (fun p => p ≠ [])).map
    (fun p => (⟨p⟩ : String))

/-- Formulation of `parse_attendance_text` following the specification's
words: split the input on newlines, then on commas within each line,
preserving order; empty or missing input yields the empty list. -/
def parse_attendance_text_spec (text : Option String) : List String :=
  match text with
  | none => []
  | some t => ((pySplitlines t.data []).map splitLineNames).flatten

/-! ### report_logic.py: configuration, image resize, flowables -/

/-- 1 inch = 72 points (ReportLab units). -/
def inch : ℚ := 72

/-- Max width in inches for images placed in the PDF. -/
def MAX_IMAGE_WIDTH_INCH : ℚ := 6.6

/-- Max pixel width images are resized to. -/
def MAX_IMAGE_PX : Nat := 1200

/-- State of a path on disk, as the image loaders see it: absent, present but
unreadable as an image (PIL / ReportLab raise), or an image with pixel
dimensions.  ReportLab's default draw size equals the pixel size in points. -/
inductive FileESt where
  | absent
  | unreadable
  | image (pxW pxH : Nat)
deriving DecidableEq

/-- `os.path.splitext`: split off the extension at the last `'.'` of the base
name, provided that dot is preceded inside the base name by some non-dot
character (so a leading-dot file name has no extension). -/
def splitext (p : String) : String × String :=
  let cs := p.data
  let sep := match (cs.reverse.findIdx? (fun c => c = '/')) with
    | some i => some (cs.length - 1 - i)
    | none => none
  let dot := match (cs.reverse.findIdx? (fun c => c = '.')) with
    | some i => some (cs.length - 1 - i)
    | none => none
  match dot with
  | none => (p, "")
  | some d =>
    let start := match sep with
      | some s => s + 1
      | none => 0
    if (match sep with | some s => decide (s < d) | none => true) &&
        ((cs.drop start).take (d - start)).any (fun c => c ≠ '.') then
      (⟨cs.take d⟩, ⟨cs.drop d⟩)
    else (p, "")

/-- Result of `ensure_image_resized`: the path the function returns, and the
pixel dimensions of the resized copy it saved (`none` when no copy is made). -/
structure ResizeResult where
  path : String
  saved : Option (Nat × Nat)
deriving DecidableEq

/-- `ensure_image_resized` from report_logic.py.  On a readable image wider
than `MAX_IMAGE_PX`, compute `ratio = MAX_IMAGE_PX / w`, truncate
`w * ratio` and `h * ratio` to integers, save the resized copy under
`base + "_resized" + ext`, and return that path; otherwise (small image, or
PIL raises on a missing or unreadable file) return the original path. -/
def ensure_image_resized (fs : String → FileESt) (path : String) : ResizeResult :=
  match fs path with
  | FileESt.image w h =>
    if MAX_IMAGE_PX < w then
      let ratio : ℚ := (MAX_IMAGE_PX : ℚ) / (w : ℚ)
      let new_w := (⌊(w : ℚ) * ratio⌋).toNat
      let new_h := (⌊(h : ℚ) * ratio⌋).toNat
      let be := splitext path
      { path := be.1 ++ "_resized" ++ be.2, saved := some (new_w, new_h) }
    else { path := path, saved := none }
  | _ => { path := path, saved := none }

/-- A unit of PDF content as assembled into the `story` list: a styled
paragraph, a spacer, a table of styled cells with column widths (in points),
or an image with draw dimensions (in points). -/
inductive Flowable where
  | para (text style : String)
  | spacer (w h : ℚ)
  | table (rows : List (List (String × String))) (colWidths : List ℚ)
  | image (path : String) (drawWidth drawHeight : ℚ)
deriving DecidableEq

/-- `make_table_from_dict` from report_logic.py: an empty dict yields no
flowables; otherwise one two-column table (bold key, plain value) plus a
spacer.  Python dicts preserve insertion order, so the dict is modelled as an
association list. -/
def make_table_from_dict (dct : List (String × String)) : List Flowable :=
  if dct.isEmpty then []
  else
    [Flowable.table (dct.map fun kv => [(kv.1, "TableKey"), (kv.2, "TableValue")])
        [2.2 * inch, 4.8 * inch],
      Flowable.spacer 1 (0.08 * inch)]

/-- `participant_table` from report_logic.py: empty name list yields the
placeholder paragraph; otherwise a single-column table headed
"Participant Name" with one row per name. -/
def participant_table (names : List String) : List Flowable :=
  if names.isEmpty then
    [Flowable.para "No attendance records provided." "NormalText",
      Flowable.spacer 1 (0.08 * inch)]
  else
    [Flowable.table
        ([("Participant Name", "TableKey")] :: names.map fun n => [(n, "TableValue")])
        [6.8 * inch],
      Flowable.spacer 1 (0.12 * inch)]

/-- Python falsy-or-missing test on an optional string (`if not path`). -/
def pyFalsy (o : Option String) : Bool :=
  match o with
  | none => true
  | some s => s = ""

/-- Python truthiness of an optional string (`if flyer_path:`). -/
def pyTruthy (o : Option String) : Bool := !(pyFalsy o)

/-- How Python renders the path inside the placeholder f-strings. -/
def pathStr (o : Option String) : String :=
  match o with
  | none => "None"
  | some s => s

/-- `image_flowable` from report_logic.py: a missing path yields the
"[Image not found: ...]" paragraph; a file that fails to load as an image
yields the "[Failed to load image: ...]" paragraph; otherwise the image,
scaled down to `max_width_inch` when wider. -/
def image_flowable (fs : String → FileESt) (path : Option String)
    (max_width_inch : ℚ) : Flowable :=
  let p := pathStr path
  if pyFalsy path || decide (fs p = FileESt.absent) then
    Flowable.para ("[Image not found: " ++ p ++ "]") "NormalText"
  else
    match fs p with
    | FileESt.image w h =>
      let max_w_pts := max_width_inch * 72
      if max_w_pts < (w : ℚ) then
        Flowable.image p ((w : ℚ) * (max_w_pts / (w : ℚ)))
          ((h : ℚ) * (max_w_pts / (w : ℚ)))
      else Flowable.image p (w : ℚ) (h : ℚ)
    | _ => Flowable.para ("[Failed to load image: " ++ p ++ "]") "NormalText"

/-! ### The report payload (`data` dict built by the POST handler) -/

structure HeaderData where
  university : String
  school : String
  department : String
deriving DecidableEq

structure GeneralInfo where
  typeOfActivity : String
  titleOfActivity : String
  dates : String
  time : String
  venue : String
  collaboration : String
deriving DecidableEq

structure SpeakerDetails where
  name : String
  titlePosition : String
  organization : String
  titleOfPresentation : String
deriving DecidableEq

structure ParticipantsProfile where
  typeOfParticipants : String
  noOfParticipants : String
deriving DecidableEq

structure SynopsisData where
  highlights : String
  key_takeaways : String
  summary : String
  follow_up_plan : String
deriving DecidableEq

structure ReportPreparedBy where
  name : String
  designation : String
deriving DecidableEq

structure SpeakerProfile where
  profile_text : String
  image_path : Option String
deriving DecidableEq

structure PhotosData where
  caption : String
  image_paths : List String
deriving DecidableEq

/-- The report payload assembled by the POST handler.  The handler always
sets every key, so the `dict.get` defaults inside `generate_report_pdf`
(which fire only on absent keys) are not reachable and the payload is a total
record. -/
structure ReportData where
  header : HeaderData
  general_info : GeneralInfo
  speaker_details : SpeakerDetails
  participants_profile : ParticipantsProfile
  synopsis : SynopsisData
  report_prepared_by : ReportPreparedBy
  speaker_profile : SpeakerProfile
  photos : PhotosData
  attendance : List String
  flyer_path : Option String
  approval_path : Option String
  impact_path : Option String
  feedback_screenshots : List String
deriving DecidableEq

/-- The `general_info` dict in insertion order. -/
def generalInfoPairs (g : GeneralInfo) : List (String × String) :=
  [("Type of Activity", g.typeOfActivity),
    ("Title of the Activity", g.titleOfActivity),
    ("Date/s", g.dates),
    ("Time", g.time),
    ("Venue", g.venue),
    ("Collaboration/Sponsor (if any)", g.collaboration)]

/-- The `speaker_details` dict in insertion order. -/
def speakerDetailsPairs (s : SpeakerDetails) : List (String × String) :=
  [("Name", s.name),
    ("Title/Position", s.titlePosition),
    ("Organization", s.organization),
    ("Title of Presentation", s.titleOfPresentation)]

/-- The `participants_profile` dict in insertion order. -/
def participantsProfilePairs (p : ParticipantsProfile) : List (String × String) :=
  [("Type of Participants", p.typeOfParticipants),
    ("No. of Participants", p.noOfParticipants)]

/-- The `synopsis_table` dict built inside `generate_report_pdf`. -/
def synopsisPairs (s : SynopsisData) : List (String × String) :=
  [("Highlights of the Activity (Description)", s.highlights),
    ("Key Takeaways", s.key_takeaways),
    ("Summary of the Activity", s.summary),
    ("Follow-up plan", s.follow_up_plan)]

/-- The `report_prepared_by` dict in insertion order. -/
def reportPreparedByPairs (r : ReportPreparedBy) : List (String × String) :=
  [("Name", r.name),
    ("Designation/Title", r.designation)]

/-- `generate_report_pdf` from report_logic.py, modelled as the `story` list
of flowables it assembles and hands to `doc.build`. -/
def generate_report_pdf (fs : String → FileESt) (data : ReportData) : List Flowable :=
  [Flowable.para data.header.university "HeaderMain"]
  ++ (if data.header.school ≠ "" then [Flowable.para data.header.school "HeaderSub"] else [])
  ++ (if data.header.department ≠ "" then
        [Flowable.para data.header.department "HeaderSub"] else [])
  ++ [Flowable.spacer 1 (0.2 * inch), Flowable.para "Activity Report" "ReportTitle"]
  ++ [Flowable.para "General Information" "SectionTitle"]
  ++ make_table_from_dict (generalInfoPairs data.general_info)
  ++ [Flowable.para "Speaker/Guest/Presenter Details" "SectionTitle"]
  ++ make_table_from_dict (speakerDetailsPairs data.speaker_details)
  ++ [Flowable.para "Participants Profile" "SectionTitle"]
  ++ make_table_from_dict (participantsProfilePairs data.participants_profile)
  ++ [Flowable.para "Synopsis of the Activity (Description)" "SectionTitle"]
  ++ make_table_from_dict (synopsisPairs data.synopsis)
  ++ [Flowable.para "Report Prepared By" "SectionTitle"]
  ++ make_table_from_dict (reportPreparedByPairs data.report_prepared_by)
  ++ (if data.speaker_profile.profile_text ≠ "" ∨ pyTruthy data.speaker_profile.image_path then
        [Flowable.para "Speaker Profile" "SectionTitle"]
        ++ (if data.speaker_profile.profile_text ≠ "" then
              [Flowable.para data.speaker_profile.profile_text "NormalText",
                Flowable.spacer 1 (0.08 * inch)]
            else [])
        ++ (if pyTruthy data.speaker_profile.image_path then
              [image_flowable fs data.speaker_profile.image_path MAX_IMAGE_WIDTH_INCH,
                Flowable.spacer 1 (0.12 * inch)]
            else [])
      else [])
  ++ [Flowable.para "Photos of the Activity" "SectionTitle"]
  ++ (if data.photos.image_paths ≠ [] then
        (data.photos.image_paths.map fun p =>
          [image_flowable fs (some p) MAX_IMAGE_WIDTH_INCH,
            Flowable.spacer 1 (0.12 * inch)]).flatten
      else
        [Flowable.para "No photos provided." "NormalText", Flowable.spacer 1 (0.08 * inch)])
  ++ [Flowable.para "Attendance List" "SectionTitle"]
  ++ participant_table data.attendance
  ++ [Flowable.para "Flyer of the Event" "SectionTitle"]
  ++ (if pyTruthy data.flyer_path then
        [image_flowable fs data.flyer_path MAX_IMAGE_WIDTH_INCH,
          Flowable.spacer 1 (0.12 * inch)]
      else
        [Flowable.para "No flyer uploaded." "NormalText", Flowable.spacer 1 (0.08 * inch)])
  ++ [Flowable.para "Approval Letter" "SectionTitle"]
  ++ (if pyTruthy data.approval_path then
        [image_flowable fs data.approval_path MAX_IMAGE_WIDTH_INCH,
          Flowable.spacer 1 (0.12 * inch)]
      else
        [Flowable.para "No approval letter uploaded." "NormalText",
          Flowable.spacer 1 (0.08 * inch)])
  ++ [Flowable.para "Feedback Screenshots" "SectionTitle"]
  ++ (if data.feedback_screenshots ≠ [] then
        (data.feedback_screenshots.map fun p =>
          [image_flowable fs (some p) MAX_IMAGE_WIDTH_INCH,
            Flowable.spacer 1 (0.12 * inch)]).flatten
      else
        [Flowable.para "No feedback screenshots uploaded." "NormalText",
          Flowable.spacer 1 (0.08 * inch)])
  ++ [Flowable.para "Impact Analysis Report" "SectionTitle"]
  ++ (if pyTruthy data.impact_path then
        [image_flowable fs data.impact_path MAX_IMAGE_WIDTH_INCH,
          Flowable.spacer 1 (0.12 * inch)]
      else
        [Flowable.para "No impact analysis report uploaded." "NormalText",
          Flowable.spacer 1 (0.08 * inch)])

/-! ### app.py: the POST handler

`save_uploaded_file` performs disk I/O (timestamped name, directory
creation, `fileobj.save`); it is modelled as an abstract fallible oracle
`save : subfolder → upload → Except err path` that yields the path the file
was stored under or the message of the exception it raised.  Reading the
saved spreadsheet back returns the uploaded content, so the sheet travels
with the upload. -/

/-- An uploaded file: its client filename and, for the attendance slot, its
content viewed as a spreadsheet. -/
structure FileUpload where
  filename : String
  sheet : ExcelSheet
deriving DecidableEq

/-- A POST request: `form name` is `request.form.get(name, '')` and
`files name` is `request.files.get(name)`. -/
structure Request where
  form : String → String
  files : String → Option FileUpload

/-- One optional image slot (speaker image, flyer, approval letter, impact
report): if a file is present and passes the image-extension check it is
saved, resized, and its path recorded; otherwise the slot is `none`. -/
def image_slot (save : String → FileUpload → Except String String)
    (fs : String → FileESt) (subfolder : String) (slot : Option FileUpload) :
    Except String (Option String) :=
  match slot with
  | some f =>
    if allowed_file f.filename ALLOWED_IMAGE_EXTS then
      match save subfolder f with
      | Except.error e => Except.error e
      | Except.ok p => Except.ok (some (ensure_image_resized fs p).path)
    else Except.ok none
  | none => Except.ok none

/-- Loop body shared by the photo and feedback-screenshot loops: for each
slot index, a present file passing the image check is saved, resized and
appended; other slots contribute nothing. -/
def image_slots_go (save : String → FileUpload → Except String String)
    (fs : String → FileESt) (subfolder slotBase : String)
    (files : String → Option FileUpload) :
    List Nat → List String → Except String (List String)
  | [], acc => Except.ok acc
  | i :: rest, acc =>
    match files (slotBase ++ toString i) with
    | some f =>
      if allowed_file f.filename ALLOWED_IMAGE_EXTS then
        match save subfolder f with
        | Except.error e => Except.error e
        | Except.ok p =>
          image_slots_go save fs subfolder slotBase files rest
            (acc ++ [(ensure_image_resized fs p).path])
      else image_slots_go save fs subfolder slotBase files rest acc
    | none => image_slots_go save fs subfolder slotBase files rest acc

/-- The `for i in range(1, 6)` upload loops (`photo_1..photo_5`,
`feedback_ss_1..feedback_ss_5`). -/
def image_slots (save : String → FileUpload → Except String String)
    (fs : String → FileESt) (subfolder slotBase : String)
    (files : String → Option FileUpload) : Except String (List String) :=
  image_slots_go save fs subfolder slotBase files [1, 2, 3, 4, 5] []

/-- The attendance block of the handler: parse the manual text; if a
spreadsheet passing the xlsx check was uploaded, save it and parse it, and
let the parsed names replace the manual list when they are non-empty. -/
def attendance_value (save : String → FileUpload → Except String String)
    (form : String → String) (files : String → Option FileUpload) :
    Except String (List String) :=
  match files "attendance_excel" with
  | some f =>
    if allowed_file f.filename ALLOWED_EXCEL_EXTS then
      match save "attendance" f with
      | Except.error e => Except.error e
      | Except.ok _excel_path =>
        if (parse_attendance_excel f.sheet).isEmpty then
          Except.ok (parse_attendance_text (some (form "attendance_text")))
        else Except.ok (parse_attendance_excel f.sheet)
    else Except.ok (parse_attendance_text (some (form "attendance_text")))
  | none => Except.ok (parse_attendance_text (some (form "attendance_text")))

/-- The payload-assembly part of the POST branch (app.py lines 76-178),
with the `Except` monad written out as explicit matches: any failing step
aborts the assembly with that step's error. -/
def build_payload (save : String → FileUpload → Except String String)
    (fs : String → FileESt) (req : Request) : Except String ReportData :=
  match image_slot save fs "speaker" (req.files "speaker_image") with
  | Except.error e => Except.error e
  | Except.ok speaker_image_path =>
  match image_slots save fs "photos" "photo_" req.files with
  | Except.error e => Except.error e
  | Except.ok photo_paths =>
  match attendance_value save req.form req.files with
  | Except.error e => Except.error e
  | Except.ok attendance_list =>
  match image_slot save fs "attachments" (req.files "flyer") with
  | Except.error e => Except.error e
  | Except.ok flyer_path =>
  match image_slot save fs "attachments" (req.files "approval_letter") with
  | Except.error e => Except.error e
  | Except.ok approval_path =>
  match image_slot save fs "attachments" (req.files "impact_analysis_report") with
  | Except.error e => Except.error e
  | Except.ok impact_path =>
  match image_slots save fs "feedback" "feedback_ss_" req.files with
  | Except.error e => Except.error e
  | Except.ok fb_paths =>
    Except.ok
      { header :=
          { university := pyStripS (req.form "university"),
            school := pyStripS (req.form "school"),
            department := pyStripS (req.form "department") },
        general_info :=
          { typeOfActivity := req.form "Type of Activity",
            titleOfActivity := req.form "Title of the Activity",
            dates := req.form "Date/s",
            time := req.form "Time",
            venue := req.form "Venue",
            collaboration := req.form "Collaboration/Sponsor (if any)" },
        speaker_details :=
          { name := req.form "Name",
            titlePosition := req.form "Title/Position",
            organization := req.form "Organization",
            titleOfPresentation := req.form "Title of Presentation" },
        participants_profile :=
          { typeOfParticipants := req.form "Type of Participants",
            noOfParticipants := req.form "No. of Participants" },
        synopsis :=
          { highlights := req.form "highlights",
            key_takeaways := req.form "key_takeaways",
            summary := req.form "summary",
            follow_up_plan := req.form "follow_up_plan" },
        report_prepared_by :=
          { name := req.form "Name_Prepared",
            designation := req.form "Designation/Title_Prepared" },
        speaker_profile :=
          { profile_text := req.form "profile_text",
            image_path := speaker_image_path },
        photos :=
          { caption := req.form "caption",
            image_paths := photo_paths },
        attendance := attendance_list,
        flyer_path := flyer_path,
        approval_path := approval_path,
        impact_path := impact_path,
        feedback_screenshots := fb_paths }

/-- The HTTP response of the POST branch: either the generated PDF sent as a
download, or the form re-rendered with an error message. -/
inductive PostResponse (π : Type) where
  | sendPdf (downloadName : String) (pdf : π)
  | errorPage (msg : String)
deriving DecidableEq

/-- The POST branch of `index` (app.py lines 74-192): assemble the payload,
generate the PDF, and send it; the enclosing `try/except` turns any raised
exception into the re-rendered form page carrying the exception's message.
`render` abstracts `doc.build` turning the story into PDF bytes of type `π`,
which may itself raise. -/
def index_post {π : Type} (save : String → FileUpload → Except String String)
    (fs : String → FileESt) (render : List Flowable → Except String π)
    (req : Request) : PostResponse π :=
  match build_payload save fs req with
  | Except.error e => PostResponse.errorPage e
  | Except.ok data =>
    match render (generate_report_pdf fs data) with
    | Except.error e => PostResponse.errorPage e
    | Except.ok pdf_bytes =>
      PostResponse.sendPdf (data.general_info.titleOfActivity ++ "_Report.pdf") pdf_bytes

/-- The substring of a filename after its last `'.'` (the specification's
description of the extension used by the upload checks). -/
def lastExt (s : String) : String :=
  ⟨(s.data.reverse.takeWhile (fun c => c ≠ '.')).reverse⟩

/-! ### Concrete fixtures used to exercise the theorems -/

/-- A save oracle that always succeeds, storing under `subfolder/filename`. -/
def saveOk : String → FileUpload → Except String String :=
  fun subfolder f => Except.ok (subfolder ++ "/" ++ f.filename)

/-- A save oracle whose disk write always raises. -/
def saveFail : String → FileUpload → Except String String :=
  fun _ _ => Except.error "disk full"

/-- A disk on which no path exists. -/
def fsEmpty : String → FileESt := fun _ => FileESt.absent

/-- A renderer that always succeeds. -/
def renderOk : List Flowable → Except String Nat := fun _ => Except.ok 0

/-- A spreadsheet holding only a recognised header row, so that parsing it
yields no names. -/
def sheetHeaderOnly : ExcelSheet :=
  { parseError := false, ncols := 1, firstCol := [some "Name"] }

/-- A spreadsheet with a header row followed by two names. -/
def sheetWithHeader : ExcelSheet :=
  { parseError := false, ncols := 1,
    firstCol := [some " Name", some " Alice ", some "", some "Bob"] }

/-- An empty sheet used for uploads whose spreadsheet content is irrelevant. -/
def sheetBlank : ExcelSheet := { parseError := false, ncols := 0, firstCol := [] }

/-- An xlsx upload whose sheet parses to no names. -/
def uploadHeaderOnly : FileUpload := { filename := "list.xlsx", sheet := sheetHeaderOnly }

/-- An xlsx upload whose sheet parses to names. -/
def uploadWithNames : FileUpload := { filename := "list.xlsx", sheet := sheetWithHeader }

/-- A png upload. -/
def uploadPng : FileUpload := { filename := "flyer.png", sheet := sheetBlank }

/-- A request carrying manual attendance text plus an xlsx upload whose sheet
parses to no names. -/
def reqManualAndEmptyExcel : Request :=
  { form := fun n => if n = "attendance_text" then "Alice" else "",
    files := fun n => if n = "attendance_excel" then some uploadHeaderOnly else none }

/-- A request carrying manual attendance text plus an xlsx upload whose sheet
parses to names. -/
def reqManualAndFullExcel : Request :=
  { form := fun n => if n = "attendance_text" then "Zed" else "",
    files := fun n => if n = "attendance_excel" then some uploadWithNames else none }

/-- A request with a flyer upload only. -/
def reqFlyerOnly : Request :=
  { form := fun _ => "",
    files := fun n => if n = "flyer" then some uploadPng else none }

/-- A request whose uploads all carry a rejected extension. -/
def reqBadExts : Request :=
  { form := fun _ => "",
    files := fun _ => some { filename := "evil.exe", sheet := sheetBlank } }

/-- A payload with every optional field empty. -/
def emptyOptionalData : ReportData :=
  { header := { university := "CHRIST (Deemed to be University)", school := "", department := "" },
    general_info :=
      { typeOfActivity := "", titleOfActivity := "Demo", dates := "", time := "",
        venue := "", collaboration := "" },
    speaker_details :=
      { name := "", titlePosition := "", organization := "", titleOfPresentation := "" },
    participants_profile := { typeOfParticipants := "", noOfParticipants := "" },
    synopsis := { highlights := "", key_takeaways := "", summary := "", follow_up_plan := "" },
    report_prepared_by := { name := "", designation := "" },
    speaker_profile := { profile_text := "", image_path := none },
    photos := { caption := "", image_paths := [] },
    attendance := [],
    flyer_path := none,
    approval_path := none,
    impact_path := none,
    feedback_screenshots := [] }

/-- The payload `build_payload` assembles from `reqBadExts` (all uploads
rejected, all form fields empty). -/
def badExtsPayload : ReportData :=
  { header := { university := "", school := "", department := "" },
    general_info :=
      { typeOfActivity := "", titleOfActivity := "", dates := "", time := "",
        venue := "", collaboration := "" },
    speaker_details :=
      { name := "", titlePosition := "", organization := "", titleOfPresentation := "" },
    participants_profile := { typeOfParticipants := "", noOfParticipants := "" },
    synopsis := { highlights := "", key_takeaways := "", summary := "", follow_up_plan := "" },
    report_prepared_by := { name := "", designation := "" },
    speaker_profile := { profile_text := "", image_path := none },
    photos := { caption := "", image_paths := [] },
    attendance := [],
    flyer_path := none,
    approval_path := none,
    impact_path := none,
    feedback_screenshots := [] }

/-- A request with accepted photo uploads in slots 1 and 3 and a rejected
upload in slot 2. -/
def reqMixedPhotos : Request :=
  { form := fun _ => "",
    files := fun n =>
      if n = "photo_1" then some { filename := "a.png", sheet := sheetBlank }
      else if n = "photo_2" then some { filename := "evil.exe", sheet := sheetBlank }
      else if n = "photo_3" then some { filename := "c.jpg", sheet := sheetBlank }
      else none }

/-- The payload assembled from `reqMixedPhotos`: only the accepted slots 1
and 3 contribute photo paths; the rejected slot 2 contributes no entry. -/
def mixedPhotosPayload : ReportData :=
  { badExtsPayload with
      photos := { caption := "", image_paths := ["photos/a.png", "photos/c.jpg"] } }

/-- The payload assembled from `reqManualAndFullExcel`: the parsed
spreadsheet names replace the manual list. -/
def fullExcelPayload : ReportData := { badExtsPayload with attendance := ["Alice", "Bob"] }

/-- The payload assembled from `reqManualAndEmptyExcel`: the manual list is
kept because the spreadsheet parses to no names. -/
def manualKeptPayload : ReportData := { badExtsPayload with attendance := ["Alice"] }

/-! ### Lemmas about the string primitives -/

theorem dropWhile_idem (p : Char → Bool) (l : List Char) :
    List.dropWhile p (List.dropWhile p l) = List.dropWhile p l := by
  cases h : List.dropWhile p l with
  | nil => simp
  | cons a t =>
    have h2 := List.head?_dropWhile_not p l
    rw [h] at h2
    simp only [List.head?_cons] at h2
    exact List.dropWhile_cons_of_neg (by simp [h2])

theorem head_false_of_dropWhile_fix {p : Char → Bool} {a : Char} {t : List Char}
    (h : List.dropWhile p (a :: t) = a :: t) : p a = false := by
  by_cases hpa : p a = true
  · rw [List.dropWhile_cons_of_pos hpa] at h
    have hle : (List.dropWhile p t).length ≤ t.length :=
      ((List.dropWhile_suffix p).sublist).length_le
    rw [h] at hle
    simp at hle
  · simpa using hpa

theorem dropWhile_fix_of_prefix {p : Char → Bool} {u v : List Char}
    (huv : v <+: u) (hu : List.dropWhile p u = u) : List.dropWhile p v = v := by
  cases v with
  | nil => simp
  | cons a t =>
    obtain ⟨w, hw⟩ := huv
    rw [← hw] at hu
    rw [List.cons_append] at hu
    have ha : p a = false := head_false_of_dropWhile_fix hu
    exact List.dropWhile_cons_of_neg (by simp [ha])

theorem pyStrip_idem (l : List Char) : pyStrip (pyStrip l) = pyStrip l := by
  unfold pyStrip
  have hufront :
      List.dropWhile Char.isWhitespace (List.dropWhile Char.isWhitespace l)
        = List.dropWhile Char.isWhitespace l := dropWhile_idem _ l
  have hpre :
      ((List.dropWhile Char.isWhitespace l).reverse.dropWhile Char.isWhitespace).reverse
        <+: List.dropWhile Char.isWhitespace l := by
    refine List.reverse_suffix.mp ?_
    rw [List.reverse_reverse]
    exact List.dropWhile_suffix _
  have hwfront := dropWhile_fix_of_prefix hpre hufront
  rw [hwfront, List.reverse_reverse, dropWhile_idem]

theorem pyStripS_idem (s : String) : pyStripS (pyStripS s) = pyStripS s := by
  unfold pyStripS
  exact congrArg _ (pyStrip_idem s.data)

theorem splitOnComma_no_comma {l : List Char} (h : ',' ∉ l) : splitOnComma l = [l] := by
  induction l with
  | nil => rfl
  | cons c rest ih =>
    have hc : ¬(c = ',') := fun e => h (by simp [e])
    have hr : ',' ∉ rest := fun m => h (List.mem_cons_of_mem _ m)
    simp only [splitOnComma, if_neg hc]
    rw [ih hr]

theorem foldl_append_eq_flatten {α β : Type} (g : α → List β) (l : List α)
    (init : List β) :
    l.foldl (fun acc x => acc ++ g x) init = init ++ (l.map g).flatten := by
  induction l generalizing init with
  | nil => simp
  | cons a t ih => simp [ih, List.append_assoc]

theorem line_step_eq (rawLine : List Char) (parts : List String) :
    (if pyStrip rawLine = [] then parts
     else if ',' ∈ pyStrip rawLine then
       parts ++
         (((splitOnComma (pyStrip rawLine)).map pyStrip).filter
             (fun p => p ≠ [])).map
           (fun p => (⟨p⟩ : String))
     else parts ++ [(⟨pyStrip rawLine⟩ : String)])
    = parts ++ splitLineNames rawLine := by
  unfold splitLineNames
  by_cases h0 : pyStrip rawLine = []
  · rw [if_pos h0, h0]
    have hstrip : pyStrip ([] : List Char) = [] := rfl
    simp [splitOnComma, hstrip]
  · rw [if_neg h0]
    by_cases h1 : ',' ∈ pyStrip rawLine
    · rw [if_pos h1]
    · rw [if_neg h1, splitOnComma_no_comma h1]
      simp [pyStrip_idem, h0]

theorem parse_attendance_text_eq_spec (t : Option String) :
    parse_attendance_text t = parse_attendance_text_spec t := by
  cases t with
  | none => rfl
  | some s =>
    simp only [parse_attendance_text, parse_attendance_text_spec]
    by_cases hs : s = ""
    · subst hs
      simp [pySplitlines]
    · rw [if_neg hs]
      have hfun :
          (fun (parts : List String) (rawLine : List Char) =>
            if pyStrip rawLine = [] then parts
            else if ',' ∈ pyStrip rawLine then
              parts ++
                (((splitOnComma (pyStrip rawLine)).map pyStrip).filter
                    (fun p => p ≠ [])).map
                  (fun p => (⟨p⟩ : String))
            else parts ++ [(⟨pyStrip rawLine⟩ : String)])
          = fun parts rawLine => parts ++ splitLineNames rawLine := by
        funext parts rawLine
        exact line_step_eq rawLine parts
      rw [hfun, foldl_append_eq_flatten]
      simp

/-- C10: every element returned by `parse_attendance_text` is non-empty with
no leading or trailing whitespace; the list is obtained by splitting the
input on newlines and then on commas within each line, preserving order; and
empty or missing input yields the empty list. -/
theorem c10_parse_attendance_text_clean :
    (∀ (t : Option String) (x : String),
        x ∈ parse_attendance_text t → pyStripS x = x ∧ x ≠ "")
    ∧ (∀ t, parse_attendance_text t = parse_attendance_text_spec t)
    ∧ parse_attendance_text (some "") = [] ∧ parse_attendance_text none = [] := by
  refine ⟨?_, parse_attendance_text_eq_spec, rfl, rfl⟩
  intro t x hx
  rw [parse_attendance_text_eq_spec] at hx
  cases t with
  | none => simp [parse_attendance_text_spec] at hx
  | some s =>
    unfold parse_attendance_text_spec at hx
    rw [List.mem_flatten] at hx
    obtain ⟨l, hl, hxl⟩ := hx
    rw [List.mem_map] at hl
    obtain ⟨rawLine, _, rfl⟩ := hl
    unfold splitLineNames at hxl
    rw [List.mem_map] at hxl
    obtain ⟨p, hp, rfl⟩ := hxl
    rw [List.mem_filter] at hp
    obtain ⟨hpmem, hpne⟩ := hp
    rw [List.mem_map] at hpmem
    obtain ⟨q, _, rfl⟩ := hpmem
    constructor
    · show pyStripS ⟨pyStrip q⟩ = ⟨pyStrip q⟩
      unfold pyStripS
      simp [pyStrip_idem]
    · intro he
      have : pyStrip q = [] := congrArg String.data he
      simp [this] at hpne

/-- Witness for C10 at a concrete input. -/
theorem c10_witness :
    (pyStripS "Alice" = "Alice" ∧ "Alice" ≠ "")
    ∧ parse_attendance_text (some " Alice ,\nBob")
        = parse_attendance_text_spec (some " Alice ,\nBob") := by
  exact ⟨c10_parse_attendance_text_clean.1 (some " Alice ,\nBob") "Alice" (by decide),
    c10_parse_attendance_text_clean.2.1 (some " Alice ,\nBob")⟩

/-- C3: for every attendance spreadsheet that reads successfully, has at
least one column, and whose first column (after dropping NaN cells) begins
with a header row — a cell whose stripped, lowercased text is one of the
recognised header labels — `parse_attendance_excel` returns the participant
names from the remaining rows only, with the header row excluded. -/
theorem c3_excel_header_excluded (sh : ExcelSheet) (c : String) (rest : List String)
    (hpe : sh.parseError = false) (hnc : sh.ncols ≠ 0)
    (hcol : sh.firstCol.filterMap id = c :: rest)
    (hhdr : pyLower (pyStripS c) ∈ headerLabels) :
    parse_attendance_excel sh = (rest.map pyStripS).filter (fun s => s ≠ "") := by
  unfold parse_attendance_excel
  rw [hpe, hcol]
  simp [hnc, hhdr]

/-- Witness for C3 at a concrete spreadsheet. -/
theorem c3_witness :
    parse_attendance_excel sheetWithHeader
        = (([" Alice ", "", "Bob"].map pyStripS).filter (fun s => s ≠ ""))
    ∧ (([" Alice ", "", "Bob"].map pyStripS).filter (fun s => s ≠ "")) = ["Alice", "Bob"] := by
  refine ⟨c3_excel_header_excluded sheetWithHeader " Name" [" Alice ", "", "Bob"]
    rfl (by decide) (by decide) (by decide), by decide⟩

theorem rsplitLastDot_eq_none {l : List Char} (h : rsplitLastDot l = none) :
    '.' ∉ l := by
  induction l with
  | nil => simp
  | cons c rest ih =>
    simp only [rsplitLastDot] at h
    cases hr : rsplitLastDot rest with
    | some ab =>
      rw [hr] at h
      simp at h
    | none =>
      rw [hr] at h
      by_cases hc : c = '.'
      · rw [if_pos hc] at h
        simp at h
      · intro hm
        rcases List.mem_cons.mp hm with he | hm'
        · exact hc he.symm
        · exact ih hr hm'

theorem rsplitLastDot_eq_some {l : List Char} :
    ∀ {a b : List Char}, rsplitLastDot l = some (a, b) →
      l = a ++ '.' :: b ∧ '.' ∉ b := by
  induction l with
  | nil => intro a b h; simp [rsplitLastDot] at h
  | cons c rest ih =>
    intro a b h
    simp only [rsplitLastDot] at h
    cases hr : rsplitLastDot rest with
    | some ab =>
      rw [hr] at h
      obtain ⟨a', b'⟩ := ab
      simp only [Option.some.injEq, Prod.mk.injEq] at h
      obtain ⟨ha, hb⟩ := h
      obtain ⟨h1, h2⟩ := ih hr
      subst ha
      subst hb
      exact ⟨by rw [List.cons_append, h1], h2⟩
    | none =>
      rw [hr] at h
      by_cases hc : c = '.'
      · rw [if_pos hc] at h
        simp only [Option.some.injEq, Prod.mk.injEq] at h
        obtain ⟨ha, hb⟩ := h
        subst ha
        subst hb
        exact ⟨by rw [hc, List.nil_append], rsplitLastDot_eq_none hr⟩
      · rw [if_neg hc] at h
        simp at h

theorem takeWhile_append_stop {p : Char → Bool} {xs : List Char} {y : Char}
    {ys : List Char} (hxs : ∀ x ∈ xs, p x = true) (hy : p y = false) :
    (xs ++ y :: ys).takeWhile p = xs := by
  rw [List.takeWhile_append_of_pos hxs, List.takeWhile_cons_of_neg (by simp [hy])]
  simp

theorem allowed_file_iff (filename : String) (allowed : List String) :
    allowed_file filename allowed = true ↔
      '.' ∈ filename.data ∧ pyLower (lastExt filename) ∈ allowed := by
  unfold allowed_file lastExt
  cases hr : rsplitLastDot filename.data with
  | none =>
    have hnd := rsplitLastDot_eq_none hr
    simp [hnd]
  | some ab =>
    obtain ⟨a, b⟩ := ab
    obtain ⟨hdec, hnb⟩ := rsplitLastDot_eq_some hr
    have hmem : '.' ∈ filename.data := by
      rw [hdec]
      exact List.mem_append_right _ (List.mem_cons_self _ _)
    have hext : (filename.data.reverse.takeWhile (fun c => c ≠ '.')).reverse = b := by
      rw [hdec, List.reverse_append, List.reverse_cons, List.append_assoc,
        List.singleton_append]
      rw [takeWhile_append_stop (p := fun c => c ≠ '.')
        (fun x hx => by
          simp only [ne_eq, decide_eq_true_eq]
          intro he
          exact hnb (he ▸ List.mem_reverse.mp hx))
        (by simp)]
      exact List.reverse_reverse b
    simp only [ne_eq, decide_not] at hext
    simp [hmem, hext]

/-- Projection of a successful payload assembly onto the slot values each
step produced. -/
theorem build_payload_fields (save : String → FileUpload → Except String String)
    (fs : String → FileESt) (req : Request) (d : ReportData)
    (h : build_payload save fs req = Except.ok d) :
    image_slot save fs "speaker" (req.files "speaker_image")
        = Except.ok d.speaker_profile.image_path
    ∧ image_slots save fs "photos" "photo_" req.files = Except.ok d.photos.image_paths
    ∧ attendance_value save req.form req.files = Except.ok d.attendance
    ∧ image_slot save fs "attachments" (req.files "flyer") = Except.ok d.flyer_path
    ∧ image_slot save fs "attachments" (req.files "approval_letter")
        = Except.ok d.approval_path
    ∧ image_slot save fs "attachments" (req.files "impact_analysis_report")
        = Except.ok d.impact_path
    ∧ image_slots save fs "feedback" "feedback_ss_" req.files
        = Except.ok d.feedback_screenshots := by
  unfold build_payload at h
  cases h1 : image_slot save fs "speaker" (req.files "speaker_image") with
  | error e => rw [h1] at h; exact absurd h (by simp)
  | ok sp =>
  rw [h1] at h
  cases h2 : image_slots save fs "photos" "photo_" req.files with
  | error e => rw [h2] at h; exact absurd h (by simp)
  | ok pp =>
  rw [h2] at h
  cases h3 : attendance_value save req.form req.files with
  | error e => rw [h3] at h; exact absurd h (by simp)
  | ok att =>
  rw [h3] at h
  cases h4 : image_slot save fs "attachments" (req.files "flyer") with
  | error e => rw [h4] at h; exact absurd h (by simp)
  | ok fl =>
  rw [h4] at h
  cases h5 : image_slot save fs "attachments" (req.files "approval_letter") with
  | error e => rw [h5] at h; exact absurd h (by simp)
  | ok ap =>
  rw [h5] at h
  cases h6 : image_slot save fs "attachments" (req.files "impact_analysis_report") with
  | error e => rw [h6] at h; exact absurd h (by simp)
  | ok ip =>
  rw [h6] at h
  cases h7 : image_slots save fs "feedback" "feedback_ss_" req.files with
  | error e => rw [h7] at h; exact absurd h (by simp)
  | ok fb =>
  rw [h7] at h
  injection h with h
  subst h
  exact ⟨rfl, rfl, rfl, rfl, rfl, rfl, rfl⟩

theorem image_slot_none_of_not_allowed
    {save : String → FileUpload → Except String String} {fs : String → FileESt}
    {subfolder : String} {f : FileUpload}
    (hf : allowed_file f.filename ALLOWED_IMAGE_EXTS = false) :
    image_slot save fs subfolder (some f) = Except.ok none := by
  simp [image_slot, hf]

theorem image_slots_go_skip_all
    (save : String → FileUpload → Except String String) (fs : String → FileESt)
    (subfolder slotBase : String) (files : String → Option FileUpload) :
    ∀ (l : List Nat) (acc : List String),
      (∀ i ∈ l, ∀ f, files (slotBase ++ toString i) = some f →
          allowed_file f.filename ALLOWED_IMAGE_EXTS = false) →
      image_slots_go save fs subfolder slotBase files l acc = Except.ok acc := by
  intro l
  induction l with
  | nil => intro acc _; rfl
  | cons i rest ih =>
    intro acc hall
    unfold image_slots_go
    cases hf : files (slotBase ++ toString i) with
    | none => exact ih acc (fun j hj => hall j (List.mem_cons_of_mem _ hj))
    | some f =>
      have hbad := hall i (List.mem_cons_self _ _) f hf
      simp only [hbad, Bool.false_eq_true, if_false]
      exact ih acc (fun j hj => hall j (List.mem_cons_of_mem _ hj))

theorem image_slots_go_length
    (save : String → FileUpload → Except String String) (fs : String → FileESt)
    (subfolder slotBase : String) (files : String → Option FileUpload) :
    ∀ (l : List Nat) (acc r : List String),
      image_slots_go save fs subfolder slotBase files l acc = Except.ok r →
      r.length ≤ acc.length + l.length := by
  intro l
  induction l with
  | nil =>
    intro acc r h
    injection h with h
    subst h
    simp
  | cons i rest ih =>
    intro acc r h
    unfold image_slots_go at h
    cases hf : files (slotBase ++ toString i) with
    | none =>
      rw [hf] at h
      have := ih acc r h
      simp only [List.length_cons]
      omega
    | some f =>
      rw [hf] at h
      by_cases ha : allowed_file f.filename ALLOWED_IMAGE_EXTS = true
      · simp only [ha, eq_self_iff_true, if_true] at h
        cases hs : save subfolder f with
        | error e =>
          simp only [hs] at h
          exact absurd h (by simp)
        | ok p =>
          simp only [hs] at h
          have := ih (acc ++ [(ensure_image_resized fs p).path]) r h
          simp only [List.length_append, List.length_cons, List.length_nil] at this ⊢
          omega
      · rw [Bool.not_eq_true] at ha
        simp only [ha, Bool.false_eq_true, if_false] at h
        have := ih acc r h
        simp only [List.length_cons]
        omega

/-- A slot holding a file that fails the image-extension check contributes
nothing to the upload loop: running the loop over any slot list containing
that slot produces exactly the result of running it with the slot deleted,
whatever the other slots hold. -/
theorem image_slots_go_skip_rejected
    (save : String → FileUpload → Except String String) (fs : String → FileESt)
    (subfolder slotBase : String) (files : String → Option FileUpload)
    (i : Nat) (f : FileUpload)
    (hf : files (slotBase ++ toString i) = some f)
    (hbad : allowed_file f.filename ALLOWED_IMAGE_EXTS = false) :
    ∀ (l₁ l₂ : List Nat) (acc : List String),
      image_slots_go save fs subfolder slotBase files (l₁ ++ i :: l₂) acc
        = image_slots_go save fs subfolder slotBase files (l₁ ++ l₂) acc := by
  intro l₁
  induction l₁ with
  | nil =>
    intro l₂ acc
    simp only [List.nil_append]
    simp only [image_slots_go, hf, hbad, Bool.false_eq_true, if_false]
  | cons j t ih =>
    intro l₂ acc
    simp only [List.cons_append]
    simp only [image_slots_go]
    cases hg : files (slotBase ++ toString j) with
    | none => exact ih l₂ acc
    | some g =>
      by_cases hga : allowed_file g.filename ALLOWED_IMAGE_EXTS = true
      · simp only [hga, eq_self_iff_true, if_true]
        cases hs : save subfolder g with
        | error e => rfl
        | ok p => exact ih l₂ (acc ++ [(ensure_image_resized fs p).path])
      · rw [Bool.not_eq_true] at hga
        simp only [hga, Bool.false_eq_true, if_false]
        exact ih l₂ acc

/-- C5: a file is accepted as an image exactly when its name contains a dot
and the lowercased substring after the last dot is one of png/jpg/jpeg/gif,
and as a spreadsheet exactly when that substring is xlsx (the same
`allowed_file` check with the respective extension set); uploads failing
their check contribute nothing to the payload: the single-image slots stay
`None`, a rejected photo or feedback slot adds no list entry even among
accepted slots (the assembled list equals the loop run with that slot
deleted, so all slots rejected yield the empty list), and a rejected
spreadsheet leaves the manual attendance list in place. -/
theorem c5_extension_gate :
    (∀ (filename : String) (allowed : List String),
        allowed_file filename allowed = true ↔
          '.' ∈ filename.data ∧ pyLower (lastExt filename) ∈ allowed)
    ∧ (∀ save fs req d, build_payload save fs req = Except.ok d →
        (∀ f, req.files "speaker_image" = some f →
            allowed_file f.filename ALLOWED_IMAGE_EXTS = false →
            d.speaker_profile.image_path = none)
        ∧ (∀ f, req.files "flyer" = some f →
            allowed_file f.filename ALLOWED_IMAGE_EXTS = false → d.flyer_path = none)
        ∧ (∀ f, req.files "approval_letter" = some f →
            allowed_file f.filename ALLOWED_IMAGE_EXTS = false → d.approval_path = none)
        ∧ (∀ f, req.files "impact_analysis_report" = some f →
            allowed_file f.filename ALLOWED_IMAGE_EXTS = false → d.impact_path = none)
        ∧ ((∀ i ∈ [1, 2, 3, 4, 5], ∀ f, req.files ("photo_" ++ toString i) = some f →
              allowed_file f.filename ALLOWED_IMAGE_EXTS = false) →
            d.photos.image_paths = [])
        ∧ ((∀ i ∈ [1, 2, 3, 4, 5], ∀ f, req.files ("feedback_ss_" ++ toString i) = some f →
              allowed_file f.filename ALLOWED_IMAGE_EXTS = false) →
            d.feedback_screenshots = [])
        ∧ (∀ (l₁ l₂ : List Nat) (i : Nat) (f : FileUpload),
            [1, 2, 3, 4, 5] = l₁ ++ i :: l₂ →
            req.files ("photo_" ++ toString i) = some f →
            allowed_file f.filename ALLOWED_IMAGE_EXTS = false →
            image_slots_go save fs "photos" "photo_" req.files (l₁ ++ l₂) []
              = Except.ok d.photos.image_paths)
        ∧ (∀ (l₁ l₂ : List Nat) (i : Nat) (f : FileUpload),
            [1, 2, 3, 4, 5] = l₁ ++ i :: l₂ →
            req.files ("feedback_ss_" ++ toString i) = some f →
            allowed_file f.filename ALLOWED_IMAGE_EXTS = false →
            image_slots_go save fs "feedback" "feedback_ss_" req.files (l₁ ++ l₂) []
              = Except.ok d.feedback_screenshots)
        ∧ (∀ f, req.files "attendance_excel" = some f →
            allowed_file f.filename ALLOWED_EXCEL_EXTS = false →
            d.attendance = parse_attendance_text (some (req.form "attendance_text")))) := by
  refine ⟨allowed_file_iff, ?_⟩
  intro save fs req d h
  obtain ⟨h1, h2, h3, h4, h5, h6, h7⟩ := build_payload_fields save fs req d h
  refine ⟨?_, ?_, ?_, ?_, ?_, ?_, ?_, ?_, ?_⟩
  · intro f hf hbad
    rw [hf, image_slot_none_of_not_allowed hbad] at h1
    injection h1 with h1
    exact h1.symm
  · intro f hf hbad
    rw [hf, image_slot_none_of_not_allowed hbad] at h4
    injection h4 with h4
    exact h4.symm
  · intro f hf hbad
    rw [hf, image_slot_none_of_not_allowed hbad] at h5
    injection h5 with h5
    exact h5.symm
  · intro f hf hbad
    rw [hf, image_slot_none_of_not_allowed hbad] at h6
    injection h6 with h6
    exact h6.symm
  · intro hall
    unfold image_slots at h2
    rw [image_slots_go_skip_all save fs "photos" "photo_" req.files _ _ hall] at h2
    injection h2 with h2
    exact h2.symm
  · intro hall
    unfold image_slots at h7
    rw [image_slots_go_skip_all save fs "feedback" "feedback_ss_" req.files _ _ hall] at h7
    injection h7 with h7
    exact h7.symm
  · intro l₁ l₂ i f hsplit hf hbad
    unfold image_slots at h2
    rw [hsplit] at h2
    rw [image_slots_go_skip_rejected save fs "photos" "photo_" req.files i f hf hbad
      l₁ l₂ []] at h2
    exact h2
  · intro l₁ l₂ i f hsplit hf hbad
    unfold image_slots at h7
    rw [hsplit] at h7
    rw [image_slots_go_skip_rejected save fs "feedback" "feedback_ss_" req.files i f hf hbad
      l₁ l₂ []] at h7
    exact h7
  · intro f hf hbad
    unfold attendance_value at h3
    rw [hf] at h3
    simp only [hbad, Bool.false_eq_true, if_false] at h3
    injection h3 with h3
    exact h3.symm

/-- Witness for C5: a mixed-case png name passes the image check; the
request whose uploads all end in `.exe` assembles a payload with empty
image slots and the (empty) manual attendance list; and in a mixed request
(accepted photos in slots 1 and 3, a rejected upload in slot 2) the
assembled photo list equals the loop run with slot 2 deleted, holding
exactly the two accepted entries. -/
theorem c5_witness :
    ('.' ∈ "a.PNG".data ∧ pyLower (lastExt "a.PNG") ∈ ALLOWED_IMAGE_EXTS)
    ∧ badExtsPayload.flyer_path = none
    ∧ badExtsPayload.photos.image_paths = []
    ∧ image_slots_go saveOk fsEmpty "photos" "photo_" reqMixedPhotos.files
        ([1] ++ [3, 4, 5]) [] = Except.ok mixedPhotosPayload.photos.image_paths
    ∧ mixedPhotosPayload.photos.image_paths = ["photos/a.png", "photos/c.jpg"]
    ∧ badExtsPayload.attendance
        = parse_attendance_text (some (reqBadExts.form "attendance_text")) := by
  refine ⟨(c5_extension_gate.1 "a.PNG" ALLOWED_IMAGE_EXTS).mp (by decide),
    ?_, ?_, ?_, by decide, ?_⟩
  · exact (c5_extension_gate.2 saveOk fsEmpty reqBadExts badExtsPayload rfl).2.1
      { filename := "evil.exe", sheet := sheetBlank } rfl (by decide)
  · exact (c5_extension_gate.2 saveOk fsEmpty reqBadExts badExtsPayload rfl).2.2.2.2.1
      (by
        intro i _ f hf
        injection hf with hf
        rw [← hf]
        decide)
  · exact (c5_extension_gate.2 saveOk fsEmpty reqMixedPhotos mixedPhotosPayload
      rfl).2.2.2.2.2.2.1 [1] [3, 4, 5] 2
      { filename := "evil.exe", sheet := sheetBlank } rfl rfl (by decide)
  · exact (c5_extension_gate.2 saveOk fsEmpty reqBadExts badExtsPayload
      rfl).2.2.2.2.2.2.2.2
      { filename := "evil.exe", sheet := sheetBlank } rfl (by decide)

/-- C6: every successfully assembled payload has at most five activity-photo
paths and at most five feedback-screenshot paths, because only the slots
`photo_1..photo_5` and `feedback_ss_1..feedback_ss_5` are read. -/
theorem c6_at_most_five_slots (save : String → FileUpload → Except String String)
    (fs : String → FileESt) (req : Request) (d : ReportData)
    (h : build_payload save fs req = Except.ok d) :
    d.photos.image_paths.length ≤ 5 ∧ d.feedback_screenshots.length ≤ 5 := by
  obtain ⟨-, h2, -, -, -, -, h7⟩ := build_payload_fields save fs req d h
  unfold image_slots at h2 h7
  constructor
  · have := image_slots_go_length save fs "photos" "photo_" req.files
      [1, 2, 3, 4, 5] [] d.photos.image_paths h2
    simpa using this
  · have := image_slots_go_length save fs "feedback" "feedback_ss_" req.files
      [1, 2, 3, 4, 5] [] d.feedback_screenshots h7
    simpa using this

/-- Witness for C6 at a concrete request. -/
theorem c6_witness :
    badExtsPayload.photos.image_paths.length ≤ 5
    ∧ badExtsPayload.feedback_screenshots.length ≤ 5 :=
  c6_at_most_five_slots saveOk fsEmpty reqBadExts badExtsPayload rfl

/-- C2 as stated is false: a request with non-empty manual attendance text
and an xlsx upload passing the extension check whose sheet parses to no
names keeps the manual list, so the payload attendance differs from the
spreadsheet's parsed name list. -/
theorem c2_counterexample :
    allowed_file uploadHeaderOnly.filename ALLOWED_EXCEL_EXTS = true
    ∧ reqManualAndEmptyExcel.files "attendance_excel" = some uploadHeaderOnly
    ∧ reqManualAndEmptyExcel.form "attendance_text" ≠ ""
    ∧ (build_payload saveOk fsEmpty reqManualAndEmptyExcel).toOption.map
        ReportData.attendance = some ["Alice"]
    ∧ parse_attendance_excel uploadHeaderOnly.sheet = []
    ∧ (["Alice"] : List String) ≠ parse_attendance_excel uploadHeaderOnly.sheet := by
  exact ⟨by decide, rfl, by decide, by decide, by decide, by decide⟩

/-- C2 (amended): when both manual attendance text and an xlsx upload
passing the extension check are supplied, the payload attendance is the
spreadsheet's parsed name list provided that list is non-empty. -/
theorem c2_excel_takes_precedence (save : String → FileUpload → Except String String)
    (fs : String → FileESt) (req : Request) (d : ReportData) (f : FileUpload)
    (h : build_payload save fs req = Except.ok d)
    (hf : req.files "attendance_excel" = some f)
    (ha : allowed_file f.filename ALLOWED_EXCEL_EXTS = true)
    (hp : parse_attendance_excel f.sheet ≠ []) :
    d.attendance = parse_attendance_excel f.sheet := by
  obtain ⟨-, -, h3, -, -, -, -⟩ := build_payload_fields save fs req d h
  unfold attendance_value at h3
  rw [hf] at h3
  simp only [ha, eq_self_iff_true, if_true] at h3
  cases hs : save "attendance" f with
  | error e =>
    simp only [hs] at h3
    exact absurd h3 (by simp)
  | ok p =>
    simp only [hs] at h3
    rw [if_neg (by simp [List.isEmpty_iff, hp])] at h3
    injection h3 with h3
    exact h3.symm

/-- Witness for the amended C2 at a concrete request. -/
theorem c2_witness :
    fullExcelPayload.attendance = parse_attendance_excel uploadWithNames.sheet :=
  c2_excel_takes_precedence saveOk fsEmpty reqManualAndFullExcel fullExcelPayload
    uploadWithNames rfl rfl (by decide) (by decide)

/-- C9: when the uploaded spreadsheet passes the xlsx extension check but
parses to an empty name list, the attendance list parsed from the manual
text is kept unchanged. -/
theorem c9_manual_kept_on_empty_parse (save : String → FileUpload → Except String String)
    (fs : String → FileESt) (req : Request) (d : ReportData) (f : FileUpload)
    (h : build_payload save fs req = Except.ok d)
    (hf : req.files "attendance_excel" = some f)
    (ha : allowed_file f.filename ALLOWED_EXCEL_EXTS = true)
    (hp : parse_attendance_excel f.sheet = []) :
    d.attendance = parse_attendance_text (some (req.form "attendance_text")) := by
  obtain ⟨-, -, h3, -, -, -, -⟩ := build_payload_fields save fs req d h
  unfold attendance_value at h3
  rw [hf] at h3
  simp only [ha, eq_self_iff_true, if_true] at h3
  cases hs : save "attendance" f with
  | error e =>
    simp only [hs] at h3
    exact absurd h3 (by simp)
  | ok p =>
    simp only [hs] at h3
    rw [if_pos (by simp [List.isEmpty_iff, hp])] at h3
    injection h3 with h3
    exact h3.symm

/-- Witness for C9 at a concrete request. -/
theorem c9_witness :
    manualKeptPayload.attendance
      = parse_attendance_text (some (reqManualAndEmptyExcel.form "attendance_text")) :=
  c9_manual_kept_on_empty_parse saveOk fsEmpty reqManualAndEmptyExcel manualKeptPayload
    uploadHeaderOnly rfl rfl (by decide) (by decide)

/-- C4: for every image wider than `MAX_IMAGE_PX` (1200) pixels,
`ensure_image_resized` saves a resized copy whose width
`int(w * (MAX_IMAGE_PX / w))` is at most `MAX_IMAGE_PX`, and returns the
path of that resized copy (`base + "_resized" + ext`). -/
theorem c4_resize_bounds_width (fs : String → FileESt) (path : String) (w h : Nat)
    (himg : fs path = FileESt.image w h) (hw : MAX_IMAGE_PX < w) :
    (ensure_image_resized fs path).path
        = (splitext path).1 ++ "_resized" ++ (splitext path).2
    ∧ (ensure_image_resized fs path).saved.map Prod.fst
        = some ((⌊(w : ℚ) * ((MAX_IMAGE_PX : ℚ) / (w : ℚ))⌋).toNat)
    ∧ (⌊(w : ℚ) * ((MAX_IMAGE_PX : ℚ) / (w : ℚ))⌋).toNat ≤ MAX_IMAGE_PX := by
  have hw0 : (w : ℚ) ≠ 0 := Nat.cast_ne_zero.mpr (by omega)
  have hfloor : (w : ℚ) * ((MAX_IMAGE_PX : ℚ) / (w : ℚ)) = (MAX_IMAGE_PX : ℚ) := by
    field_simp
  unfold ensure_image_resized
  simp only [himg]
  rw [if_pos hw]
  refine ⟨rfl, rfl, ?_⟩
  rw [hfloor, Int.floor_natCast, Int.toNat_natCast]

/-- Witness for C4 at a concrete oversized image. -/
theorem c4_witness :
    (ensure_image_resized (fun _ => FileESt.image 2400 1001) "up/a.png").path
        = (splitext "up/a.png").1 ++ "_resized" ++ (splitext "up/a.png").2
    ∧ (ensure_image_resized (fun _ => FileESt.image 2400 1001) "up/a.png").saved.map
        Prod.fst = some ((⌊(2400 : ℚ) * ((MAX_IMAGE_PX : ℚ) / (2400 : ℚ))⌋).toNat)
    ∧ (⌊(2400 : ℚ) * ((MAX_IMAGE_PX : ℚ) / (2400 : ℚ))⌋).toNat ≤ MAX_IMAGE_PX := by
  have := c4_resize_bounds_width (fun _ => FileESt.image 2400 1001) "up/a.png"
    2400 1001 rfl (by decide)
  simpa using this

/-- C7: a missing or unloadable image never fails `image_flowable`: a falsy
or non-existent path yields the "[Image not found: ...]" placeholder
paragraph, a file that fails to load yields the "[Failed to load image: ...]"
placeholder paragraph, and the placeholder is placed into the generated
document in the image's position (shown here for the flyer section). -/
theorem c7_image_placeholders (fs : String → FileESt) (path : Option String) (mwi : ℚ) :
    (pyFalsy path = true ∨ fs (pathStr path) = FileESt.absent →
      image_flowable fs path mwi
        = Flowable.para ("[Image not found: " ++ pathStr path ++ "]") "NormalText")
    ∧ (pyFalsy path = false → fs (pathStr path) = FileESt.unreadable →
      image_flowable fs path mwi
        = Flowable.para ("[Failed to load image: " ++ pathStr path ++ "]") "NormalText")
    ∧ (∀ (data : ReportData) (p : String), data.flyer_path = some p → p ≠ "" →
        fs p = FileESt.absent →
        Flowable.para ("[Image not found: " ++ p ++ "]") "NormalText"
          ∈ generate_report_pdf fs data) := by
  refine ⟨?_, ?_, ?_⟩
  · intro hcond
    unfold image_flowable
    rcases hcond with hfal | habs
    · rw [if_pos (by simp [hfal])]
    · rw [if_pos (by simp [habs])]
  · intro hfal hunr
    unfold image_flowable
    rw [if_neg (by simp [hfal, hunr])]
    rw [hunr]
  · intro data p hfp hpne habs
    have htru : pyTruthy data.flyer_path = true := by
      rw [hfp]
      simp [pyTruthy, pyFalsy, hpne]
    have himg : image_flowable fs data.flyer_path MAX_IMAGE_WIDTH_INCH
        = Flowable.para ("[Image not found: " ++ p ++ "]") "NormalText" := by
      rw [hfp]
      unfold image_flowable
      rw [if_pos (by simp [pathStr, habs])]
      rfl
    unfold generate_report_pdf
    rw [htru]
    simp only [if_true, eq_self_iff_true]
    rw [himg]
    simp [List.mem_append]

/-- Witness for C7 at concrete paths and disks. -/
theorem c7_witness :
    image_flowable fsEmpty (some "x.png") MAX_IMAGE_WIDTH_INCH
        = Flowable.para "[Image not found: x.png]" "NormalText"
    ∧ image_flowable (fun _ => FileESt.unreadable) (some "y.png") MAX_IMAGE_WIDTH_INCH
        = Flowable.para "[Failed to load image: y.png]" "NormalText"
    ∧ Flowable.para "[Image not found: f.png]" "NormalText"
        ∈ generate_report_pdf fsEmpty { badExtsPayload with flyer_path := some "f.png" } := by
  refine ⟨?_, ?_, ?_⟩
  · exact (c7_image_placeholders fsEmpty (some "x.png") MAX_IMAGE_WIDTH_INCH).1
      (Or.inr rfl)
  · exact (c7_image_placeholders (fun _ => FileESt.unreadable) (some "y.png")
      MAX_IMAGE_WIDTH_INCH).2.1 (by decide) rfl
  · exact (c7_image_placeholders fsEmpty (some "f.png") MAX_IMAGE_WIDTH_INCH).2.2
      { badExtsPayload with flyer_path := some "f.png" } "f.png" rfl (by decide) rfl

/-- C8: the POST handler never lets an exception escape: whenever payload
assembly or PDF generation raises, the handler returns the re-rendered form
page carrying that exception's message as the error. -/
theorem c8_top_level_catch {π : Type} (save : String → FileUpload → Except String String)
    (fs : String → FileESt) (render : List Flowable → Except String π)
    (req : Request) (e : String)
    (h : build_payload save fs req = Except.error e
        ∨ ∃ d, build_payload save fs req = Except.ok d
            ∧ render (generate_report_pdf fs d) = Except.error e) :
    index_post save fs render req = PostResponse.errorPage e := by
  unfold index_post
  rcases h with hb | ⟨d, hd, hr⟩
  · rw [hb]
  · simp only [hd, hr]

/-- Witness for C8: a failing disk write surfaces as the form error page. -/
theorem c8_witness :
    index_post saveFail fsEmpty renderOk reqFlyerOnly
      = PostResponse.errorPage "disk full" :=
  c8_top_level_catch saveFail fsEmpty renderOk reqFlyerOnly "disk full" (Or.inl rfl)

/-- C1: a payload whose optional fields are all empty still yields a
document (a non-empty story), and every optional section holds its
placeholder paragraph — "No photos provided.", "No attendance records
provided.", "No flyer uploaded.", "No approval letter uploaded.",
"No feedback screenshots uploaded.", "No impact analysis report
uploaded." — while the speaker-profile section, being optional, is omitted
entirely (no "Speaker Profile" heading appears). -/
theorem c1_empty_optionals_placeholders (fs : String → FileESt) (data : ReportData)
    (h1 : data.photos.image_paths = []) (h2 : data.attendance = [])
    (h3 : data.flyer_path = none) (h4 : data.approval_path = none)
    (h5 : data.feedback_screenshots = []) (h6 : data.impact_path = none)
    (h7 : data.speaker_profile.profile_text = "")
    (h8 : data.speaker_profile.image_path = none) :
    generate_report_pdf fs data ≠ []
    ∧ Flowable.para "No photos provided." "NormalText" ∈ generate_report_pdf fs data
    ∧ Flowable.para "No attendance records provided." "NormalText"
        ∈ generate_report_pdf fs data
    ∧ Flowable.para "No flyer uploaded." "NormalText" ∈ generate_report_pdf fs data
    ∧ Flowable.para "No approval letter uploaded." "NormalText"
        ∈ generate_report_pdf fs data
    ∧ Flowable.para "No feedback screenshots uploaded." "NormalText"
        ∈ generate_report_pdf fs data
    ∧ Flowable.para "No impact analysis report uploaded." "NormalText"
        ∈ generate_report_pdf fs data
    ∧ Flowable.para "Speaker Profile" "SectionTitle" ∉ generate_report_pdf fs data := by
  refine ⟨?_, ?_, ?_, ?_, ?_, ?_, ?_, ?_⟩ <;>
    by_cases hsc : data.header.school = "" <;>
      by_cases hdp : data.header.department = "" <;>
        simp [generate_report_pdf, make_table_from_dict, participant_table,
          generalInfoPairs, speakerDetailsPairs, participantsProfilePairs,
          synopsisPairs, reportPreparedByPairs, pyTruthy, pyFalsy,
          h1, h2, h3, h4, h5, h6, h7, h8, hsc, hdp]

/-- Witness for C1 at a concrete all-optional-empty payload. -/
theorem c1_witness :
    generate_report_pdf fsEmpty emptyOptionalData ≠ []
    ∧ Flowable.para "No photos provided." "NormalText"
        ∈ generate_report_pdf fsEmpty emptyOptionalData
    ∧ Flowable.para "No attendance records provided." "NormalText"
        ∈ generate_report_pdf fsEmpty emptyOptionalData
    ∧ Flowable.para "No flyer uploaded." "NormalText"
        ∈ generate_report_pdf fsEmpty emptyOptionalData
    ∧ Flowable.para "No approval letter uploaded." "NormalText"
        ∈ generate_report_pdf fsEmpty emptyOptionalData
    ∧ Flowable.para "No feedback screenshots uploaded." "NormalText"
        ∈ generate_report_pdf fsEmpty emptyOptionalData
    ∧ Flowable.para "No impact analysis report uploaded." "NormalText"
        ∈ generate_report_pdf fsEmpty emptyOptionalData
    ∧ Flowable.para "Speaker Profile" "SectionTitle"
        ∉ generate_report_pdf fsEmpty emptyOptionalData :=
  c1_empty_optionals_placeholders fsEmpty emptyOptionalData
    rfl rfl rfl rfl rfl rfl rfl rfl

end EventReport
